import Mathlib

/-!
Shallow embedding of the amenity aggregation and scoring engine of the
Refill repository (src/src/utils/scoreCalculator.ts and
src/src/utils/supabase.ts).  JavaScript numbers are modelled as rationals
(all arithmetic in the program is exact decimal arithmetic except where a
division may have a zero denominator, which is modelled as `Option`:
`none` stands for the non-finite IEEE result NaN/Infinity).  Nullable
fields (`boolean | null`, optional `baseScore`) are modelled as `Option`.
Database I/O is modelled by passing the store's response as an explicit
oracle value; a thrown store error is the `DBRes.fail` outcome, and the
surrounding try/catch is the match converting it to the default value.
-/

/-- One per-amenity counter triple, the `{ yes, no, idk }` objects of the
`RestaurantRow` interface in supabase.ts. -/
structure Tally where
  yes : Nat
  no : Nat
  idk : Nat
deriving DecidableEq, Repr

/-- The persisted row (`RestaurantRow` in supabase.ts): key, four tallies
and a score. `created_at` is set by the store and never read by the logic
modelled here, so it is omitted. -/
structure RestaurantRow where
  key : String
  bread : Tally
  refill : Tally
  attendant : Tally
  pay : Tally
  score : ℚ
deriving DecidableEq, Repr

/-- The caller-supplied report (`RestaurantAmenities` in types/index.ts,
restricted to the fields the engine reads): four `boolean | null` answers
and an optional base score. -/
structure AmenityReport where
  freeRefills : Option Bool
  breadBasket : Option Bool
  payAtTable : Option Bool
  attendant : Option Bool
  baseScore : Option ℚ
deriving DecidableEq, Repr

/-- JavaScript `x || d` on a number `x`: `0` is falsy, so it is replaced
by the default `d`. -/
def jsOrQ (x d : ℚ) : ℚ :=
  if x = 0 then d else x

/-- JavaScript `x || d` on a possibly-absent number: `undefined` and `0`
both yield the default `d`. Embeds `amenities.baseScore || 5` in
scoreCalculator.ts line 23. -/
def jsOrOptQ (x : Option ℚ) (d : ℚ) : ℚ :=
  match x with
  | none => d
  | some v => jsOrQ v d

/-- The running sum of scoreCalculator.ts `calculateScore` before the
final `Math.max(0, Math.min(10, score))` line: base score plus the four
independent additive amenity adjustments. -/
def rawScore (amenities : AmenityReport) : ℚ :=
  jsOrOptQ amenities.baseScore 5
    + (match amenities.freeRefills with
       | some true => 2.2
       | some false => -2.2
       | none => 0)
    + (match amenities.breadBasket with
       | some true => 1
       | some false => -3
       | none => 0)
    + (match amenities.payAtTable with
       | some true => 1.5
       | some false => -0.5
       | none => 0)
    + (match amenities.attendant with
       | some true => -3
       | _ => 0)

/-- `calculateScore` of scoreCalculator.ts: the raw sum clamped to
`[0, 10]` by `Math.max(0, Math.min(10, score))`. -/
def calculateScore (amenities : AmenityReport) : ℚ :=
  max 0 (min 10 (rawScore amenities))

/-- `calculateAverageScore` of scoreCalculator.ts.  `weights` is the
optional second parameter.  The weighted branch is taken exactly when
weights are present and of equal length (the only guard in the source);
its division is modelled as `Option`: a zero total weight gives `none`
(the IEEE result there is NaN or ±Infinity, not a real number).  All
other paths return `some` of the exact rational result. -/
def calculateAverageScore (scores : List ℚ) (weights : Option (List ℚ)) : Option ℚ :=
  if scores.length = 0 then some 0
  else
    match weights with
    | some ws =>
      if ws.length = scores.length then
        let weightedSum := (scores.zip ws).foldl (fun sum p => sum + p.1 * p.2) 0
        let totalWeight := ws.foldl (fun sum w => sum + w) 0
        if totalWeight = 0 then none else some (weightedSum / totalWeight)
      else some ((scores.foldl (fun acc s => acc + s) 0) / scores.length)
    | none => some ((scores.foldl (fun acc s => acc + s) 0) / scores.length)

/-- Total number of reports recorded in one tally, `yes + no + idk`. -/
def Tally.total (t : Tally) : Nat :=
  t.yes + t.no + t.idk

/-- The fresh tally the create path of `submitRestaurantReport` builds for
one amenity answer (supabase.ts lines 178-197): the bucket matching the
answer is 1, the others 0. -/
def tallyOf (answer : Option Bool) : Tally :=
  { yes := if answer = some true then 1 else 0
    no := if answer = some false then 1 else 0
    idk := if answer = none then 1 else 0 }

/-- The update path's increment of one tally for one amenity answer
(supabase.ts lines 134-155): the bucket matching the answer grows by 1,
the others are copied. -/
def Tally.inc (t : Tally) (answer : Option Bool) : Tally :=
  { yes := t.yes + (if answer = some true then 1 else 0)
    no := t.no + (if answer = some false then 1 else 0)
    idk := t.idk + (if answer = none then 1 else 0) }

/-- The create path of `submitRestaurantReport` (supabase.ts lines
174-208): a new row with one-hot tallies and score
`Math.min(10, calculateScore(amenities))`. -/
def createRow (placeId : String) (amenities : AmenityReport) : RestaurantRow :=
  { key := placeId
    bread := tallyOf amenities.breadBasket
    refill := tallyOf amenities.freeRefills
    attendant := tallyOf amenities.attendant
    pay := tallyOf amenities.payAtTable
    score := min 10 (calculateScore amenities) }

/-- The update path of `submitRestaurantReport` (supabase.ts lines
126-173): tallies incremented, and the running weighted average
`oldCount > 0 ? (oldScore*oldCount + userScore)/(oldCount+1) : userScore`
capped by `Math.min(10, ·)`.  `oldReportCount` is read from the refill
tally before the update; `oldScore` is `row.score || 0`. -/
def updateRow (row : RestaurantRow) (amenities : AmenityReport) : RestaurantRow :=
  let oldReportCount : Nat := row.refill.yes + row.refill.no + row.refill.idk
  let oldScore : ℚ := jsOrQ row.score 0
  let userScore : ℚ := calculateScore amenities
  let weightedAverage : ℚ :=
    if 0 < oldReportCount then
      (oldScore * oldReportCount + userScore) / (oldReportCount + 1)
    else userScore
  { row with
    bread := row.bread.inc amenities.breadBasket
    refill := row.refill.inc amenities.freeRefills
    attendant := row.attendant.inc amenities.attendant
    pay := row.pay.inc amenities.payAtTable
    score := min 10 weightedAverage }

/-- The state transition of one successful `submitRestaurantReport` call:
create when no row exists (`if (existing)` false), update otherwise. -/
def submitTransition (placeId : String) (existing : Option RestaurantRow)
    (amenities : AmenityReport) : RestaurantRow :=
  match existing with
  | some row => updateRow row amenities
  | none => createRow placeId amenities

/-- A sequence of successful submits applied to a stored state. -/
def applyReports (placeId : String) (st : Option RestaurantRow)
    (reports : List AmenityReport) : Option RestaurantRow :=
  reports.foldl (fun acc r => some (submitTransition placeId acc r)) st

/-- The majority derivation used by `getRestaurantAmenities` (supabase.ts
lines 69-72) and `getMultipleRestaurantAmenities` (lines 258-261):
`yes > no ? true : no > yes ? false : null`. -/
def majority (t : Tally) : Option Bool :=
  if t.no < t.yes then some true
  else if t.yes < t.no then some false
  else none

/-- The `{ yes, no, total }` statistics objects built per amenity on the
read paths. -/
structure Stats where
  yes : Nat
  no : Nat
  total : Nat
deriving DecidableEq, Repr

/-- Statistics for one tally: `yes`, `no`, and `total = yes + no + idk`. -/
def statsOf (t : Tally) : Stats :=
  { yes := t.yes, no := t.no, total := t.yes + t.no + t.idk }

/-- The value `getRestaurantAmenities` returns for a found row: four
derived majority statuses plus per-amenity statistics. -/
structure AmenitiesResult where
  freeRefills : Option Bool
  breadBasket : Option Bool
  payAtTable : Option Bool
  attendant : Option Bool
  freeRefillsStats : Stats
  breadBasketStats : Stats
  payAtTableStats : Stats
  attendantStats : Stats
deriving DecidableEq, Repr

/-- The derivation `getRestaurantAmenities` performs on a fetched row
(supabase.ts lines 66-100). -/
def deriveAmenities (row : RestaurantRow) : AmenitiesResult :=
  { freeRefills := majority row.refill
    breadBasket := majority row.bread
    payAtTable := majority row.pay
    attendant := majority row.attendant
    freeRefillsStats := statsOf row.refill
    breadBasketStats := statsOf row.bread
    payAtTableStats := statsOf row.pay
    attendantStats := statsOf row.attendant }

/-- Outcome of one store round trip: `ok` carries the store's answer,
`fail` is a thrown lookup/persist error (caught by the adapter). -/
inductive DBRes (α : Type) where
  | ok : α → DBRes α
  | fail : DBRes α
deriving DecidableEq, Repr

/-- Whether a store round trip succeeded. -/
def DBRes.isOk {α : Type} : DBRes α → Bool
  | .ok _ => true
  | .fail => false

/-- `getRestaurantAmenities` with the store's response passed explicitly:
`ok none` is the PGRST116 no-rows answer (returns null), `ok (some row)`
a found row, `fail` any other store error (thrown, caught, null
returned). -/
def getRestaurantAmenities (fetch : DBRes (Option RestaurantRow)) : Option AmenitiesResult :=
  match fetch with
  | .fail => none
  | .ok none => none
  | .ok (some row) => some (deriveAmenities row)

/-- `getMultipleRestaurantAmenities` with the store's response passed
explicitly: the returned map is modelled as the association list the
`forEach` builds; a query error gives the empty map, as does a null
data payload. -/
def getMultipleRestaurantAmenities (fetch : DBRes (Option (List RestaurantRow))) :
    List (String × (ℚ × AmenitiesResult)) :=
  match fetch with
  | .fail => []
  | .ok none => []
  | .ok (some rows) =>
    rows.map (fun r => (r.key, (jsOrQ r.score 0, deriveAmenities r)))

/-- `submitRestaurantReport` with both store round trips passed
explicitly: a failed fetch throws and is caught (`false`); a successful
fetch drives the create/update transition whose result is persisted; a
failed persist throws and is caught (`false`); otherwise `true`. -/
def submitRestaurantReport (placeId : String) (fetch : DBRes (Option RestaurantRow))
    (persist : RestaurantRow → DBRes Unit) (amenities : AmenityReport) : Bool :=
  match fetch with
  | .fail => false
  | .ok existing =>
    match persist (submitTransition placeId existing amenities) with
    | .fail => false
    | .ok _ => true

/-- Exactly-one-counter-set predicate for a freshly created tally: the
bucket matching the answer is 1 and the other two are 0. -/
def OneHot (t : Tally) (answer : Option Bool) : Prop :=
  (answer = some true → t = ⟨1, 0, 0⟩) ∧
  (answer = some false → t = ⟨0, 1, 0⟩) ∧
  (answer = none → t = ⟨0, 0, 1⟩)

/-- Exactly-one-bucket-incremented predicate for an updated tally: the
bucket matching the answer grows by 1 and the other two are copied. -/
def IncOne (t u : Tally) (answer : Option Bool) : Prop :=
  (answer = some true → u = ⟨t.yes + 1, t.no, t.idk⟩) ∧
  (answer = some false → u = ⟨t.yes, t.no + 1, t.idk⟩) ∧
  (answer = none → u = ⟨t.yes, t.no, t.idk + 1⟩)

/-- JavaScript `x || 0` is the identity on every rational. -/
lemma jsOrQ_zero (v : ℚ) : jsOrQ v 0 = v := by
  unfold jsOrQ; split <;> simp_all

/-- The clamped score is never negative. -/
lemma calculateScore_nonneg (r : AmenityReport) : 0 ≤ calculateScore r :=
  le_max_left 0 _

/-- The clamped score never exceeds 10. -/
lemma calculateScore_le_ten (r : AmenityReport) : calculateScore r ≤ 10 :=
  max_le (by norm_num) (min_le_left 10 _)

/-- A freshly created tally records exactly one report. -/
lemma tallyOf_total (a : Option Bool) : (tallyOf a).total = 1 := by
  cases a with
  | none => rfl
  | some b => cases b <;> rfl

/-- Incrementing a tally adds exactly one report to its total. -/
lemma Tally.inc_total (t : Tally) (a : Option Bool) : (t.inc a).total = t.total + 1 := by
  cases a with
  | none => simp [Tally.inc, Tally.total]; omega
  | some b => cases b <;> simp [Tally.inc, Tally.total] <;> omega

/-- The create path stores the individual score unchanged: the extra
`Math.min(10, ...)` is a no-op because `calculateScore` is already
clamped. -/
lemma createRow_score (k : String) (r : AmenityReport) :
    (createRow k r).score = calculateScore r :=
  min_eq_right (calculateScore_le_ten r)

/-- The refill tally of a freshly created row has total 1. -/
lemma createRow_refill_total (k : String) (r : AmenityReport) :
    (createRow k r).refill.total = 1 :=
  tallyOf_total _

/-- The update path increments the refill tally by the report's refill
answer. -/
lemma updateRow_refill (row : RestaurantRow) (r : AmenityReport) :
    (updateRow row r).refill = row.refill.inc r.freeRefills := rfl

/-- The score stored by the update path, expressed through the refill
tally's pre-update total. -/
lemma updateRow_score (row : RestaurantRow) (r : AmenityReport) :
    (updateRow row r).score =
      min 10 (if 0 < row.refill.total then
          (jsOrQ row.score 0 * (row.refill.total : ℚ) + calculateScore r)
            / ((row.refill.total : ℚ) + 1)
        else calculateScore r) := rfl

/-- Unfolding one submit in a sequence of submits. -/
lemma applyReports_cons (k : String) (st : Option RestaurantRow)
    (r : AmenityReport) (rs : List AmenityReport) :
    applyReports k st (r :: rs)
      = applyReports k (some (submitTransition k st r)) rs := rfl

/-- One update advances all four tally totals by exactly 1. -/
lemma updateRow_totals (row : RestaurantRow) (r : AmenityReport) :
    (updateRow row r).refill.total = row.refill.total + 1 ∧
    (updateRow row r).bread.total = row.bread.total + 1 ∧
    (updateRow row r).pay.total = row.pay.total + 1 ∧
    (updateRow row r).attendant.total = row.attendant.total + 1 :=
  ⟨Tally.inc_total _ _, Tally.inc_total _ _, Tally.inc_total _ _, Tally.inc_total _ _⟩

/-- A freshly created row has all four tally totals equal to 1. -/
lemma createRow_totals (k : String) (r : AmenityReport) :
    (createRow k r).refill.total = 1 ∧
    (createRow k r).bread.total = 1 ∧
    (createRow k r).pay.total = 1 ∧
    (createRow k r).attendant.total = 1 :=
  ⟨tallyOf_total _, tallyOf_total _, tallyOf_total _, tallyOf_total _⟩

/-- Applying a sequence of reports to a present row advances every tally
total by the length of the sequence. -/
lemma applyReports_totals (k : String) (rs : List AmenityReport) :
    ∀ (row st : RestaurantRow), applyReports k (some row) rs = some st →
      st.refill.total = row.refill.total + rs.length ∧
      st.bread.total = row.bread.total + rs.length ∧
      st.pay.total = row.pay.total + rs.length ∧
      st.attendant.total = row.attendant.total + rs.length := by
  induction rs with
  | nil =>
    intro row st h
    simp [applyReports] at h
    subst h
    simp
  | cons r rs ih =>
    intro row st h
    rw [applyReports_cons] at h
    obtain ⟨h1, h2, h3, h4⟩ := ih (updateRow row r) st h
    obtain ⟨u1, u2, u3, u4⟩ := updateRow_totals row r
    rw [u1] at h1; rw [u2] at h2; rw [u3] at h3; rw [u4] at h4
    refine ⟨?_, ?_, ?_, ?_⟩ <;> simp [List.length_cons] <;> omega

/-- The characterization of the majority rule: strictly more `yes` than
`no` gives `true`, strictly more `no` gives `false`, a tie gives `null`,
and the `idk` counter is never consulted. -/
lemma majority_spec (t : Tally) :
    (majority t = some true ↔ t.no < t.yes) ∧
    (majority t = some false ↔ t.yes < t.no) ∧
    (majority t = none ↔ t.yes = t.no) := by
  unfold majority
  rcases lt_trichotomy t.yes t.no with h | h | h <;>
    refine ⟨?_, ?_, ?_⟩ <;> split <;> simp_all <;> omega

/-- Folding addition of a mapped value is summation of the mapped list. -/
lemma foldl_add_map {α : Type} (f : α → ℚ) (l : List α) (a : ℚ) :
    l.foldl (fun s x => s + f x) a = a + (l.map f).sum := by
  induction l generalizing a with
  | nil => simp
  | cons x xs ih => simp [ih, add_assoc]

/-- The running-sum fold of the source equals the list sum. -/
lemma foldl_add_sum (l : List ℚ) : l.foldl (fun s x => s + x) 0 = l.sum := by
  have h := foldl_add_map id l 0
  simpa using h

/-- C1: starting from no stored record, three sequential successful
submits with individual scores s1, s2, s3 (each the clamped
`calculateScore` of its report) leave the stored score equal to the exact
arithmetic mean (s1 + s2 + s3) / 3: the incremental recurrence
`(oldScore * oldCount + userScore) / (oldCount + 1)`, with `oldCount`
read from the refill tally's pre-update total, equals the closed-form
average. -/
theorem claim1_three_reports_average (k : String) (r1 r2 r3 : AmenityReport) :
    (submitTransition k (some (submitTransition k (some (submitTransition k none r1)) r2)) r3).score
      = (calculateScore r1 + calculateScore r2 + calculateScore r3) / 3 := by
  have h1t := calculateScore_le_ten r1
  have h2t := calculateScore_le_ten r2
  have h3t := calculateScore_le_ten r3
  have row1 : submitTransition k none r1 = createRow k r1 := rfl
  have row2 : submitTransition k (some (createRow k r1)) r2
      = updateRow (createRow k r1) r2 := rfl
  have row3 : submitTransition k (some (updateRow (createRow k r1) r2)) r3
      = updateRow (updateRow (createRow k r1) r2) r3 := rfl
  rw [row1, row2, row3]
  have ht2 : (updateRow (createRow k r1) r2).refill.total = 2 := by
    rw [updateRow_refill, Tally.inc_total, createRow_refill_total]
  have hsc2 : (updateRow (createRow k r1) r2).score
      = (calculateScore r1 + calculateScore r2) / 2 := by
    rw [updateRow_score, createRow_refill_total, createRow_score, jsOrQ_zero]
    rw [if_pos (by norm_num)]
    push_cast
    rw [min_eq_right (by rw [div_le_iff₀ (by norm_num : (0:ℚ) < 1 + 1)]; linarith)]
    ring_nf
  rw [updateRow_score, ht2, hsc2, jsOrQ_zero, if_pos (by norm_num)]
  push_cast
  rw [min_eq_right (by rw [div_le_iff₀ (by norm_num : (0:ℚ) < 2 + 1)]; linarith)]
  ring_nf

/-- C2: the claim says an all-null report with `baseScore = b` scores
`clamp(b, 0, 10)`, with the default 5 applying only when `baseScore` is
absent.  The code instead computes `amenities.baseScore || 5`, and the
JavaScript `||` also fires on the provided value 0: at `baseScore = 0`
the code returns 5 while the claim demands `clamp(0, 0, 10) = 0`.  The
absent case does give 5. -/
theorem claim2_zero_base_score :
    calculateScore ⟨none, none, none, none, some 0⟩ = 5 ∧
    calculateScore ⟨none, none, none, none, some 0⟩ ≠ max 0 (min 10 (0:ℚ)) ∧
    calculateScore ⟨none, none, none, none, none⟩ = 5 := by
  norm_num [calculateScore, rawScore, jsOrOptQ, jsOrQ, min_def, max_def]

/-- C3: the derived amenity status is `true` exactly when `yes > no`,
`false` exactly when `no > yes`, and `null` exactly on a tie, for each of
the four amenities and regardless of the `idk` counter; in particular
`{yes:3, no:3, idk:0}` and `{yes:0, no:0, idk:5}` derive `null` and
`{yes:4, no:1, idk:0}` derives `true`. -/
theorem claim3_majority_rule :
    (∀ row : RestaurantRow,
      (((deriveAmenities row).freeRefills = some true ↔ row.refill.no < row.refill.yes) ∧
       ((deriveAmenities row).freeRefills = some false ↔ row.refill.yes < row.refill.no) ∧
       ((deriveAmenities row).freeRefills = none ↔ row.refill.yes = row.refill.no)) ∧
      (((deriveAmenities row).breadBasket = some true ↔ row.bread.no < row.bread.yes) ∧
       ((deriveAmenities row).breadBasket = some false ↔ row.bread.yes < row.bread.no) ∧
       ((deriveAmenities row).breadBasket = none ↔ row.bread.yes = row.bread.no)) ∧
      (((deriveAmenities row).payAtTable = some true ↔ row.pay.no < row.pay.yes) ∧
       ((deriveAmenities row).payAtTable = some false ↔ row.pay.yes < row.pay.no) ∧
       ((deriveAmenities row).payAtTable = none ↔ row.pay.yes = row.pay.no)) ∧
      (((deriveAmenities row).attendant = some true ↔ row.attendant.no < row.attendant.yes) ∧
       ((deriveAmenities row).attendant = some false ↔ row.attendant.yes < row.attendant.no) ∧
       ((deriveAmenities row).attendant = none ↔ row.attendant.yes = row.attendant.no))) ∧
    majority ⟨3, 3, 0⟩ = none ∧
    majority ⟨0, 0, 5⟩ = none ∧
    majority ⟨4, 1, 0⟩ = some true := by
  refine ⟨fun row => ⟨?_, ?_, ?_, ?_⟩, ?_, ?_, ?_⟩
  · exact majority_spec row.refill
  · exact majority_spec row.bread
  · exact majority_spec row.pay
  · exact majority_spec row.attendant
  · simp [majority]
  · simp [majority]
  · simp [majority]

/-- C4: the invariant `0 ≤ score ≤ 10` is preserved by every submit:
the create path always stores a score in `[0, 10]`, and the update path
applied to a record satisfying the invariant stores a score in
`[0, 10]` for any report. -/
theorem claim4_score_invariant (k : String) (row : RestaurantRow) (r : AmenityReport)
    (h0 : 0 ≤ row.score) (h10 : row.score ≤ 10) :
    (0 ≤ (submitTransition k none r).score ∧ (submitTransition k none r).score ≤ 10) ∧
    (0 ≤ (submitTransition k (some row) r).score ∧
      (submitTransition k (some row) r).score ≤ 10) := by
  have hs0 := calculateScore_nonneg r
  have hs10 := calculateScore_le_ten r
  constructor
  · constructor
    · show 0 ≤ (createRow k r).score
      rw [createRow_score]; exact hs0
    · show (createRow k r).score ≤ 10
      rw [createRow_score]; exact hs10
  · constructor
    · show 0 ≤ (updateRow row r).score
      rw [updateRow_score, jsOrQ_zero]
      refine le_min (by norm_num) ?_
      split
      · apply div_nonneg
        · have : (0:ℚ) ≤ (row.refill.total : ℚ) := Nat.cast_nonneg _
          nlinarith
        · positivity
      · exact hs0
    · show (updateRow row r).score ≤ 10
      exact min_le_left _ _

/-- C4 witness: the invariant theorem applied to a concrete record with
score 5 and an all-null report. -/
theorem claim4_witness :
    (0:ℚ) ≤ (5:ℚ) ∧ (5:ℚ) ≤ (10:ℚ) ∧
    ((0 ≤ (submitTransition "p" none ⟨none, none, none, none, none⟩).score ∧
      (submitTransition "p" none ⟨none, none, none, none, none⟩).score ≤ 10) ∧
     (0 ≤ (submitTransition "p"
        (some ⟨"p", ⟨0, 0, 0⟩, ⟨0, 0, 0⟩, ⟨0, 0, 0⟩, ⟨0, 0, 0⟩, 5⟩)
        ⟨none, none, none, none, none⟩).score ∧
      (submitTransition "p"
        (some ⟨"p", ⟨0, 0, 0⟩, ⟨0, 0, 0⟩, ⟨0, 0, 0⟩, ⟨0, 0, 0⟩, 5⟩)
        ⟨none, none, none, none, none⟩).score ≤ 10)) :=
  ⟨by norm_num, by norm_num,
    claim4_score_invariant "p" ⟨"p", ⟨0, 0, 0⟩, ⟨0, 0, 0⟩, ⟨0, 0, 0⟩, ⟨0, 0, 0⟩, 5⟩
      ⟨none, none, none, none, none⟩ (by norm_num) (by norm_num)⟩

/-- C5: every submit advances the four tallies in lockstep: the create
path makes each of the four tallies one-hot at the bucket matching that
amenity's answer, the update path increments exactly one of
`{yes, no, idk}` of each of the four tallies by 1, and hence after every
sequence of submits starting from no record all four tallies have equal
totals (the number of reports). -/
theorem claim5_lockstep_tallies (k : String) (r : AmenityReport) (row : RestaurantRow) :
    (OneHot (createRow k r).refill r.freeRefills ∧
     OneHot (createRow k r).bread r.breadBasket ∧
     OneHot (createRow k r).pay r.payAtTable ∧
     OneHot (createRow k r).attendant r.attendant) ∧
    (IncOne row.refill (updateRow row r).refill r.freeRefills ∧
     IncOne row.bread (updateRow row r).bread r.breadBasket ∧
     IncOne row.pay (updateRow row r).pay r.payAtTable ∧
     IncOne row.attendant (updateRow row r).attendant r.attendant) ∧
    (∀ (rs : List AmenityReport) (st : RestaurantRow),
       applyReports k none rs = some st →
       st.refill.total = rs.length ∧ st.bread.total = rs.length ∧
       st.pay.total = rs.length ∧ st.attendant.total = rs.length) := by
  refine ⟨⟨?_, ?_, ?_, ?_⟩, ⟨?_, ?_, ?_, ?_⟩, ?_⟩
  · exact ⟨fun h => by simp [createRow, tallyOf, h],
      fun h => by simp [createRow, tallyOf, h],
      fun h => by simp [createRow, tallyOf, h]⟩
  · exact ⟨fun h => by simp [createRow, tallyOf, h],
      fun h => by simp [createRow, tallyOf, h],
      fun h => by simp [createRow, tallyOf, h]⟩
  · exact ⟨fun h => by simp [createRow, tallyOf, h],
      fun h => by simp [createRow, tallyOf, h],
      fun h => by simp [createRow, tallyOf, h]⟩
  · exact ⟨fun h => by simp [createRow, tallyOf, h],
      fun h => by simp [createRow, tallyOf, h],
      fun h => by simp [createRow, tallyOf, h]⟩
  · exact ⟨fun h => by simp [updateRow, Tally.inc, h],
      fun h => by simp [updateRow, Tally.inc, h],
      fun h => by simp [updateRow, Tally.inc, h]⟩
  · exact ⟨fun h => by simp [updateRow, Tally.inc, h],
      fun h => by simp [updateRow, Tally.inc, h],
      fun h => by simp [updateRow, Tally.inc, h]⟩
  · exact ⟨fun h => by simp [updateRow, Tally.inc, h],
      fun h => by simp [updateRow, Tally.inc, h],
      fun h => by simp [updateRow, Tally.inc, h]⟩
  · exact ⟨fun h => by simp [updateRow, Tally.inc, h],
      fun h => by simp [updateRow, Tally.inc, h],
      fun h => by simp [updateRow, Tally.inc, h]⟩
  · intro rs st h
    cases rs with
    | nil => simp [applyReports] at h
    | cons r0 rs0 =>
      rw [applyReports_cons] at h
      obtain ⟨h1, h2, h3, h4⟩ := applyReports_totals k rs0 (createRow k r0) st h
      obtain ⟨c1, c2, c3, c4⟩ := createRow_totals k r0
      rw [c1] at h1; rw [c2] at h2; rw [c3] at h3; rw [c4] at h4
      refine ⟨?_, ?_, ?_, ?_⟩ <;> simp [List.length_cons] <;> omega

/-- C5 witness: the lockstep theorem's sequence clause applied to the
one-report sequence, whose resulting record has all four totals 1. -/
theorem claim5_witness :
    applyReports "p" none [⟨none, none, none, none, none⟩]
        = some (createRow "p" ⟨none, none, none, none, none⟩) ∧
    ((createRow "p" ⟨none, none, none, none, none⟩).refill.total = 1 ∧
     (createRow "p" ⟨none, none, none, none, none⟩).bread.total = 1 ∧
     (createRow "p" ⟨none, none, none, none, none⟩).pay.total = 1 ∧
     (createRow "p" ⟨none, none, none, none, none⟩).attendant.total = 1) :=
  ⟨rfl,
    (claim5_lockstep_tallies "p" ⟨none, none, none, none, none⟩
        ⟨"p", ⟨0, 0, 0⟩, ⟨0, 0, 0⟩, ⟨0, 0, 0⟩, ⟨0, 0, 0⟩, 0⟩).2.2
      [⟨none, none, none, none, none⟩]
      (createRow "p" ⟨none, none, none, none, none⟩) rfl⟩

/-- C6 counterexample: submitting the same all-null report twice leaves
the stored score identical to the score after one submit, so the claim
that two submits differ from one in both tallies and score is false at
this input. -/
theorem claim6_counterexample :
    (submitTransition "p" (some (submitTransition "p" none
        ⟨none, none, none, none, none⟩)) ⟨none, none, none, none, none⟩).score
      = (submitTransition "p" none ⟨none, none, none, none, none⟩).score := by
  simp only [submitTransition, createRow, updateRow, tallyOf, Tally.inc,
    calculateScore, rawScore, jsOrOptQ, jsOrQ]
  simp only [reduceCtorEq, if_false, Option.some.injEq]
  norm_num [min_def, max_def]

/-- C6 amended: two submits of the same report differ from one submit in
every one of the four tallies, but not in the score: averaging the
stored score with an identical user score leaves it unchanged. -/
theorem claim6_amended (k : String) (r : AmenityReport) :
    (submitTransition k (some (submitTransition k none r)) r).refill
        ≠ (submitTransition k none r).refill ∧
    (submitTransition k (some (submitTransition k none r)) r).bread
        ≠ (submitTransition k none r).bread ∧
    (submitTransition k (some (submitTransition k none r)) r).pay
        ≠ (submitTransition k none r).pay ∧
    (submitTransition k (some (submitTransition k none r)) r).attendant
        ≠ (submitTransition k none r).attendant ∧
    (submitTransition k (some (submitTransition k none r)) r).score
        = (submitTransition k none r).score := by
  have key : ∀ (t : Tally) (a : Option Bool), t.inc a ≠ t := by
    intro t a h
    have := congrArg Tally.total h
    rw [Tally.inc_total] at this
    omega
  refine ⟨key _ _, key _ _, key _ _, key _ _, ?_⟩
  show (updateRow (createRow k r) r).score = (createRow k r).score
  rw [updateRow_score, createRow_refill_total, createRow_score, jsOrQ_zero,
    if_pos (by norm_num)]
  push_cast
  rw [min_eq_right (by
    rw [div_le_iff₀ (by norm_num : (0:ℚ) < 1 + 1)]
    have := calculateScore_le_ten r
    linarith)]
  ring_nf

/-- C7: the unclamped score is monotone in the stated directions:
flipping freeRefills, breadBasket or payAtTable from false to true never
decreases it, flipping attendant from false to true strictly decreases
it, and attendant false contributes the same as attendant null while
attendant true contributes exactly -3. -/
theorem claim7_monotone_amenity_flags (r : AmenityReport) :
    rawScore { r with freeRefills := some false }
        ≤ rawScore { r with freeRefills := some true } ∧
    rawScore { r with breadBasket := some false }
        ≤ rawScore { r with breadBasket := some true } ∧
    rawScore { r with payAtTable := some false }
        ≤ rawScore { r with payAtTable := some true } ∧
    rawScore { r with attendant := some true }
        < rawScore { r with attendant := some false } ∧
    rawScore { r with attendant := some false }
        = rawScore { r with attendant := none } ∧
    rawScore { r with attendant := some true }
        = rawScore { r with attendant := none } - 3 := by
  refine ⟨?_, ?_, ?_, ?_, ?_, ?_⟩ <;> simp only [rawScore] <;> norm_num <;> ring_nf

/-- C8: `calculateAverageScore` returns 0 on an empty list; with weights
of matching length (and a nonzero total weight, so that the division is
meaningful) it returns the weighted mean Σ(score·weight)/Σ(weight);
otherwise it returns the unweighted arithmetic mean; the concrete
examples give 0, 6 and 6.5. -/
theorem claim8_average_score :
    (∀ w : Option (List ℚ), calculateAverageScore [] w = some 0) ∧
    (∀ scores : List ℚ, scores ≠ [] →
       calculateAverageScore scores none = some (scores.sum / scores.length)) ∧
    (∀ (scores ws : List ℚ), scores ≠ [] → ws.length ≠ scores.length →
       calculateAverageScore scores (some ws) = some (scores.sum / scores.length)) ∧
    (∀ (scores ws : List ℚ), scores ≠ [] → ws.length = scores.length → ws.sum ≠ 0 →
       calculateAverageScore scores (some ws)
         = some ((((scores.zip ws).map (fun p => p.1 * p.2)).sum) / ws.sum)) ∧
    calculateAverageScore [5, 7] none = some 6 ∧
    calculateAverageScore [5, 7] (some [1, 3]) = some 6.5 := by
  refine ⟨?_, ?_, ?_, ?_, ?_, ?_⟩
  · intro w; rfl
  · intro scores hne
    simp only [calculateAverageScore, List.length_eq_zero, hne, if_false, foldl_add_sum]
  · intro scores ws hne hw
    simp only [calculateAverageScore, List.length_eq_zero, hne, if_false, hw, foldl_add_sum]
  · intro scores ws hne hw hsum
    have hz : (scores.zip ws).foldl (fun sum p => sum + p.1 * p.2) 0
        = ((scores.zip ws).map (fun p => p.1 * p.2)).sum := by
      have h := foldl_add_map (fun p : ℚ × ℚ => p.1 * p.2) (scores.zip ws) 0
      simpa using h
    simp only [calculateAverageScore, List.length_eq_zero, hne, if_false, hw, if_true,
      foldl_add_sum, hsum, hz]
  · norm_num [calculateAverageScore]
  · norm_num [calculateAverageScore]

/-- C8 witness: the weighted clause of the average theorem applied at
the concrete input scores [5, 7] and weights [1, 3]. -/
theorem claim8_witness :
    ([(5:ℚ), 7] ≠ []) ∧ ([(1:ℚ), 3].length = [(5:ℚ), 7].length) ∧ ([(1:ℚ), 3].sum ≠ 0) ∧
    calculateAverageScore [5, 7] (some [1, 3])
      = some (((([(5:ℚ), 7].zip [1, 3]).map (fun p => p.1 * p.2)).sum) / [(1:ℚ), 3].sum) :=
  ⟨by simp, by simp, by norm_num,
    claim8_average_score.2.2.2.1 [5, 7] [1, 3] (by simp) (by simp) (by norm_num)⟩

/-- C9: all fallibility is absorbed at the adapter boundary as values:
a store error makes `submitRestaurantReport` return false,
`getRestaurantAmenities` return null, and
`getMultipleRestaurantAmenities` return the empty map; no operation
propagates an exception (each is a total function into plain values);
and absence of a record is not an error: `getRestaurantAmenities`
returns null and `submitRestaurantReport` takes the create path, its
result being exactly the success of persisting the created row. -/
theorem claim9_failure_as_value (k : String) (r : AmenityReport)
    (persist : RestaurantRow → DBRes Unit) (ex : Option RestaurantRow) :
    submitRestaurantReport k .fail persist r = false ∧
    getRestaurantAmenities .fail = none ∧
    getMultipleRestaurantAmenities .fail = [] ∧
    getRestaurantAmenities (.ok none) = none ∧
    submitRestaurantReport k (.ok none) persist r = (persist (createRow k r)).isOk ∧
    submitRestaurantReport k (.ok ex) persist r
      = (persist (submitTransition k ex r)).isOk := by
  refine ⟨rfl, rfl, rfl, rfl, ?_, ?_⟩
  · show (match persist (createRow k r) with | .fail => false | .ok _ => true)
        = (persist (createRow k r)).isOk
    cases persist (createRow k r) <;> rfl
  · show (match persist (submitTransition k ex r) with | .fail => false | .ok _ => true)
        = (persist (submitTransition k ex r)).isOk
    cases persist (submitTransition k ex r) <;> rfl

/-- C10: for scores [5] and weights [0] the weighted branch is taken
(the only guard is length equality, which holds) with total weight 0, so
the division has a zero denominator and the result is not a real number
(modelled as `none`), in particular not 0. -/
theorem claim10_zero_total_weight :
    ([(0:ℚ)].length = [(5:ℚ)].length) ∧
    ([(0:ℚ)].sum = 0) ∧
    calculateAverageScore [5] (some [0]) = none ∧
    calculateAverageScore [5] (some [0]) ≠ some 0 := by
  have h : calculateAverageScore [5] (some [0]) = none := by
    norm_num [calculateAverageScore]
  exact ⟨by simp, by norm_num, h, by rw [h]; simp⟩
